import Mathlib

/-!
Verification of the printer supply & tray monitor core (src/main.py).

The Python source is shallowly embedded: dictionaries become association
lists over `String` keys (Python dicts preserve insertion order and have
unique keys; lookups are modelled by first-match association lookup),
mutation becomes explicit state passing, and the persisted JSON document
becomes the `StateData` structure.  Fields that the code reads with
`dict.get(key, default)` and that may genuinely be absent (`since`,
`last_seen` of an open-tray entry) are modelled as `Option String`; all
other string fields are always written by the code before being read, so
they are plain `String`s.

Character classes (`\w`, `\d`, `\s`, `str.isdigit`, `str.lower`, `str.upper`)
are modelled over ASCII, the alphabet of the monitor pages this program
scrapes; Python's unicode-aware behaviour coincides with the model on ASCII
text.
-/

/-- Constant `MAX_EVENTS` from src/main.py: cap on the persisted event log. -/
def MAX_EVENTS : Nat := 20000

/-- First-match association-list lookup, the model of Python `dict.get`. -/
def alookup {β : Type} (k : String) : List (String × β) → Option β
  | [] => none
  | (k2, v) :: rest => if k2 = k then some v else alookup k rest

/-- One open-tray entry (a value of the `open_empty_trays` mapping), as built
by `build_current_empties` and stamped by `StateStore.reconcile`. -/
structure Item where
  key : String
  printer_id : String
  description : String
  tray : String
  status_message : String
  printer_text : String
  device_last_update : String
  since : Option String
  last_seen : Option String
  deriving Repr, DecidableEq

/-- One persisted history event, as built by `StateStore._append_event`. -/
structure Event where
  timestamp : String
  event_type : String
  printer_id : String
  description : String
  tray : String
  empty_since : String
  last_seen : String
  status_message : String
  printer_text : String
  note : String
  deriving Repr, DecidableEq

/-- The persisted document `StateStore.data`.  `extra` models any further
top-level JSON keys a loaded document may carry: the Python code only ever
touches the three named keys and saves the whole dict, so unknown keys are
carried along unchanged. -/
structure StateData where
  open_empty_trays : List (String × Item)
  events : List Event
  last_scan_at : String
  extra : List (String × String)
  deriving Repr, DecidableEq

/-- The empty default document installed by `StateStore.__init__`. -/
def defaultData : StateData :=
  { open_empty_trays := [], events := [], last_scan_at := "", extra := [] }

namespace StateStore

/-- Method `StateStore._append_event`: build the event record from an item via
`item.get(field, "")`. -/
def mkEvent (timestamp : String) (event_type : String) (item : Item) (note : String) : Event :=
  { timestamp := timestamp
    event_type := event_type
    printer_id := item.printer_id
    description := item.description
    tray := item.tray
    empty_since := item.since.getD ""
    last_seen := item.last_seen.getD ""
    status_message := item.status_message
    printer_text := item.printer_text
    note := note }

/-- Method `StateStore._trim_events`: keep only the most recent `MAX_EVENTS`
entries (`events[-MAX_EVENTS:]`). -/
def trimEvents (l : List Event) : List Event :=
  if l.length > MAX_EVENTS then l.drop (l.length - MAX_EVENTS) else l

/-- First loop of `StateStore.reconcile` (over `current_empties.items()`):
returns the new open set, the appended events, and the `added` count. -/
def procCurrent (previous : List (String × Item)) (t : String) :
    List (String × Item) → List (String × Item) × List Event × Nat
  | [] => ([], [], 0)
  | (k, it) :: rest =>
    let r := procCurrent previous t rest
    match alookup k previous with
    | none =>
      let it2 := { it with since := some t, last_seen := some t }
      ((k, it2) :: r.1, mkEvent t "empty" it2 "detected by monitor" :: r.2.1, r.2.2 + 1)
    | some prior =>
      let it2 := { it with since := some (prior.since.getD t), last_seen := some t }
      ((k, it2) :: r.1, r.2.1, r.2.2)

/-- Second loop of `StateStore.reconcile` (over `previous.items()`): emits a
`filled` event for every prior key no longer current, with the `filled`
count. -/
def procPrevious (current : List (String × Item)) (t : String) :
    List (String × Item) → List Event × Nat
  | [] => ([], 0)
  | (k, prior) :: rest =>
    let r := procPrevious current t rest
    if (alookup k current).isSome then r
    else
      (mkEvent t "filled" { prior with last_seen := some t } "no longer reported empty" :: r.1,
        r.2 + 1)

/-- The events appended by one `reconcile` call, in order: the detection
events of the first loop, then the fill events of the second loop. -/
def reconcileNewEvents (doc : StateData) (current : List (String × Item)) (t : String) :
    List Event :=
  (procCurrent doc.open_empty_trays t current).2.1 ++
    (procPrevious current t doc.open_empty_trays).1

/-- The event list of the document just before `_trim_events` runs. -/
def reconcileRawEvents (doc : StateData) (current : List (String × Item)) (t : String) :
    List Event :=
  doc.events ++ reconcileNewEvents doc current t

/-- Method `StateStore.reconcile`: diff the current snapshot against the persisted
open set, append events, stamp `last_scan_at`, trim, and return the
`(new_empties, new_filled)` counts alongside the new document. -/
def reconcile (doc : StateData) (current : List (String × Item)) (t : String) :
    StateData × Nat × Nat :=
  let pc := procCurrent doc.open_empty_trays t current
  let pp := procPrevious current t doc.open_empty_trays
  ({ open_empty_trays := pc.1
     events := trimEvents (reconcileRawEvents doc current t)
     last_scan_at := t
     extra := doc.extra },
    pc.2.2, pp.2)

/-- Removal of a key from the open set (`dict.pop(tray_key, None)`). -/
def removeKey (k : String) : List (String × Item) → List (String × Item)
  | [] => []
  | (k2, it) :: rest => if k2 = k then rest else (k2, it) :: removeKey k rest

/-- Method `StateStore.manual_mark_filled`: pop the key if open, append one
`filled` event noting manual resolution, stamp `last_scan_at`, trim and
persist; report `false` and leave the document untouched otherwise. -/
def manual_mark_filled (doc : StateData) (tray_key : String) (timestamp : String) :
    Bool × StateData :=
  match alookup tray_key doc.open_empty_trays with
  | none => (false, doc)
  | some it =>
    let it2 := { it with last_seen := some timestamp }
    (true,
      { open_empty_trays := removeKey tray_key doc.open_empty_trays
        events :=
          trimEvents (doc.events ++ [mkEvent timestamp "filled" it2 "manually marked filled"])
        last_scan_at := timestamp
        extra := doc.extra })

/-- A Python exception that escapes the load/startup path: the clause
`except (json.JSONDecodeError, OSError)` in `StateStore.load` does not catch
`UnicodeDecodeError` (raised by `read_text(encoding="utf-8")` on a file
whose bytes are not valid UTF-8 — it is a `ValueError`, not an `OSError`),
and a parseable non-dict document later raises `AttributeError` in
`get_open_empties` during app construction. -/
inductive PyException where
  | unicodeDecodeError
  | attributeError
  deriving Repr, DecidableEq

/-- What `self.data` holds after `load`: the code assigns the result of
`json.loads` unchecked, so it is either a document-shaped dict or some other
JSON value (a list, a string, a number — collapsed to `nonDict`, since the
code treats them all alike: every `.get` access on them raises). -/
inductive DataValue where
  | doc (d : StateData)
  | nonDict
  deriving Repr, DecidableEq

/-- The observable outcome of reading and parsing the persisted file at
startup: the file may be missing; `read_text` may raise `OSError` or
`UnicodeDecodeError`; `json.loads` may raise `JSONDecodeError`, or return a
document-shaped dict, or return some other parseable JSON value. -/
inductive FileRead where
  | missing
  | osError
  | unicodeError
  | badJson
  | jsonDoc (d : StateData)
  | jsonNonDict
  deriving Repr, DecidableEq

/-- Method `StateStore.load`: a missing file returns early and leaves the
in-memory data unchanged; `OSError` and `JSONDecodeError` are caught and
reset the data to the empty default; `UnicodeDecodeError` is not in the
except clause and propagates to the caller; a successfully parsed value is
assigned to `self.data` as-is, whether or not it is document-shaped. -/
def load (current : DataValue) (file : FileRead) : Except PyException DataValue :=
  match file with
  | .missing => .ok current
  | .osError => .ok (.doc defaultData)
  | .unicodeError => .error .unicodeDecodeError
  | .badJson => .ok (.doc defaultData)
  | .jsonDoc d => .ok (.doc d)
  | .jsonNonDict => .ok .nonDict

/-- Method `StateStore.__init__`: install the empty default document, then
run `load`; an exception raised by `load` propagates to the caller. -/
def init (file : FileRead) : Except PyException DataValue :=
  load (.doc defaultData) file

/-- Method `StateStore.get_open_empties` as called during app construction
(src/main.py:496): `self.data.get("open_empty_trays", {})` raises
`AttributeError` when `self.data` is not a dict. -/
def get_open_empties (data : DataValue) : Except PyException (List (String × Item)) :=
  match data with
  | .doc d => .ok d.open_empty_trays
  | .nonDict => .error .attributeError

/-- App startup through the state store: construct the store (which runs
`load`) and read the open set, as `PrinterMonitorApp.__init__` does. -/
def startup_open_empties (file : FileRead) : Except PyException (List (String × Item)) :=
  (init file).bind get_open_empties

end StateStore

/-! ## Text heuristics: tray normalization and tail metrics -/

/-- Characters kept by `normalize_tray`'s `re.sub(r"[^A-Za-z0-9-]", "", value)`. -/
def keepTrayChar (c : Char) : Bool :=
  c.isAlpha || c.isDigit || c == '-'

/-- Python `str.isdigit` on an ASCII token: non-empty and all digits. -/
def pyIsDigit (l : List Char) : Bool :=
  !l.isEmpty && l.all Char.isDigit

/-- Numeric value of a digit string, as Python `int(token)` (drops leading
zeros). -/
def digitsToNat (l : List Char) : Nat :=
  l.foldl (fun n c => 10 * n + (c.toNat - 48)) 0

/-- Function `normalize_tray` from src/main.py. -/
def normalize_tray (value : String) : String :=
  let token := (value.data.filter keepTrayChar).map Char.toUpper
  if token.isEmpty then "Unknown Tray"
  else if pyIsDigit token then "Tray " ++ toString (digitsToNat token)
  else if "TRAY".data.isPrefixOf token then
    let rest := token.drop 4
    let rest := if rest.isEmpty then "UNKNOWN".data else rest
    if pyIsDigit rest then "Tray " ++ toString (digitsToNat rest)
    else "Tray " ++ String.mk rest
  else "Tray " ++ String.mk token

/-- Regex word characters (`\w` = `[A-Za-z0-9_]`), the alphabet deciding the
`\b` boundaries of the numeric-token and keyword regexes. -/
def isWordChar (c : Char) : Bool :=
  c.isAlpha || c.isDigit || c == '_'

/-- Split a character stream into its maximal runs of word characters.  The
accumulator holds the current run, reversed. -/
def wordTokensAux : List Char → List Char → List (List Char)
  | acc, [] => if acc.isEmpty then [] else [acc.reverse]
  | acc, c :: rest =>
    if isWordChar c then wordTokensAux (c :: acc) rest
    else if acc.isEmpty then wordTokensAux [] rest
    else acc.reverse :: wordTokensAux [] rest

/-- The maximal word-character runs of a string, in order. -/
def wordTokens (s : String) : List (List Char) :=
  wordTokensAux [] s.data

/-- The matches of `re.findall(r"\b(\d{1,3})\b", row_tail)` converted by
`int`: exactly the maximal word-character runs that consist of one to three
digits (a boundary-delimited digit run of four or more digits, or a run
mixing digits with letters or underscores, yields no match). -/
def tailNumbers (s : String) : List Nat :=
  (wordTokens s).filterMap fun tok =>
    if pyIsDigit tok && tok.length ≤ 3 then some (digitsToNat tok) else none

/-- The fixed channel order of `parse_tail_metrics`. -/
def tailKeys : List String :=
  ["toner_k", "toner_c", "toner_m", "toner_y", "drum_k", "drum_c", "drum_m", "drum_y",
    "belt", "fuser"]

/-- The `levels` result of `parse_tail_metrics` (the verbatim
`device_reported_time` capture is independent of the levels and is not
needed here). -/
def parse_tail_metrics (row_tail : String) : List (String × Nat) :=
  let numbers := tailNumbers row_tail
  if numbers.length ≥ 10 then
    let candidate := numbers.drop (numbers.length - 10)
    if candidate.all (fun v => decide (0 ≤ v ∧ v ≤ 100)) then tailKeys.zip candidate
    else []
  else []

/-! ## Alert engine -/

/-- One derived low-supply alert (`LowAlert` dataclass). -/
structure LowAlert where
  printer_id : String
  description : String
  item : String
  level : String
  source : String
  deriving Repr, DecidableEq

/-- One parsed device record (`PrinterRecord` dataclass); only the fields
the alert engine reads are listed. -/
structure PrinterRecord where
  printer_id : String
  description : String
  status_message : String
  printer_text : String
  levels : List (String × Nat)
  deriving Repr, DecidableEq

/-- Table `COLOR_MAP` from src/main.py. -/
def colorName : String → String
  | "k" => "Black"
  | "c" => "Cyan"
  | "m" => "Magenta"
  | "y" => "Yellow"
  | _ => ""

/-- ASCII lowering of a string, Python `str.lower` on ASCII text. -/
def asciiLower (s : String) : String :=
  String.mk (s.data.map Char.toLower)

/-- The lower-cased `f"{status_message} {printer_text}"` blob the keyword
rules scan. -/
def statusBlob (r : PrinterRecord) : String :=
  asciiLower (r.status_message ++ " " ++ r.printer_text)

/-- Regex whitespace (`\s`) on ASCII text. -/
def isSpaceChar (c : Char) : Bool :=
  c == ' ' || c == '\t' || c == '\n' || c == '\x0d' || c == '\x0c' || c == '\x0b'

/-- Try to match `w1 \s+ w2 \b` at the head of `s` (the leading `\b` is the
caller's responsibility).  Since `w2` starts with a word character, the
greedy `\s+` consumes exactly the whitespace run. -/
def matchPhraseHere (w1 w2 : List Char) (s : List Char) : Bool :=
  if w1.isPrefixOf s then
    let afterW1 := s.drop w1.length
    match afterW1 with
    | [] => false
    | c :: _ =>
      if isSpaceChar c then
        let afterSpaces := afterW1.dropWhile isSpaceChar
        if w2.isPrefixOf afterSpaces then
          match afterSpaces.drop w2.length with
          | [] => true
          | c2 :: _ => !isWordChar c2
        else false
      else false
  else false

/-- Scan every position of the text, tracking whether the previous character
was a word character (so a `\b` boundary precedes the current position). -/
def searchPhraseAux (w1 w2 : List Char) : Bool → List Char → Bool
  | _, [] => false
  | prevWord, c :: rest =>
    (!prevWord && matchPhraseHere w1 w2 (c :: rest)) ||
      searchPhraseAux w1 w2 (isWordChar c) rest

/-- Model of `re.search(rf"\b{w1}\s+{w2}\b", s)` for the keyword phrases: both words
consist of word characters only. -/
def searchPhrase (w1 w2 : String) (s : String) : Bool :=
  searchPhraseAux w1.data w2.data false s.data

/-- Flag `mono_like` from `build_low_alerts`: the cyan, magenta and yellow toner
channels are all present and each is exactly zero. -/
def mono_like (r : PrinterRecord) : Bool :=
  let cmy := [alookup "toner_c" r.levels, alookup "toner_m" r.levels, alookup "toner_y" r.levels]
  (cmy.all fun l => match l with | some v => v == 0 | none => true) && cmy.all Option.isSome

/-- The fold state of `build_low_alerts`: the alerts emitted so far and the
`seen` deduplication set of `(printer_id, item, source-category)` keys. -/
structure ScanState where
  alerts : List LowAlert
  seen : List (String × String × String)
  deriving Repr, DecidableEq

/-- Append the alert unless its deduplication key was already seen. -/
def emitIfNew (st : ScanState) (dedupe : String × String × String) (a : LowAlert) : ScanState :=
  if dedupe ∈ st.seen then st else { alerts := st.alerts ++ [a], seen := dedupe :: st.seen }

/-- One iteration of the toner-channel loop of `build_low_alerts`. -/
def tonerStep (tt : Nat) (r : PrinterRecord) (mono : Bool) (st : ScanState) (ch : String) :
    ScanState :=
  if mono && (ch == "c" || ch == "m" || ch == "y") then st
  else
    match alookup ("toner_" ++ ch) r.levels with
    | none => st
    | some lv =>
      if lv ≤ tt then
        emitIfNew st (r.printer_id, colorName ch ++ " Toner", "level")
          { printer_id := r.printer_id
            description := r.description
            item := colorName ch ++ " Toner"
            level := toString lv ++ "%"
            source := "threshold <= " ++ toString tt ++ "%" }
      else st

/-- The fuser-threshold check of `build_low_alerts`. -/
def fuserStep (ft : Nat) (r : PrinterRecord) (st : ScanState) : ScanState :=
  match alookup "fuser" r.levels with
  | none => st
  | some lv =>
    if lv ≤ ft then
      emitIfNew st (r.printer_id, "Fuser", "level")
        { printer_id := r.printer_id
          description := r.description
          item := "Fuser"
          level := toString lv ++ "%"
          source := "threshold <= " ++ toString ft ++ "%" }
    else st

/-- The `keyword_rules` table: first word, second word, item, reason. -/
def keywordRules : List (String × String × String × String) :=
  [("low", "toner", "Toner", "status message reports low toner"),
    ("low", "ink", "Ink", "status message reports low ink"),
    ("low", "fuser", "Fuser", "status message reports low fuser")]

/-- One iteration of the keyword-rule loop of `build_low_alerts`. -/
def keywordStep (r : PrinterRecord) (st : ScanState) (rule : String × String × String × String) :
    ScanState :=
  if searchPhrase rule.1 rule.2.1 (statusBlob r) then
    emitIfNew st (r.printer_id, rule.2.2.1, rule.2.2.2)
      { printer_id := r.printer_id
        description := r.description
        item := rule.2.2.1
        level := "reported"
        source := rule.2.2.2 }
  else st

/-- The whole per-record body of `build_low_alerts`. -/
def processRecord (tt ft : Nat) (st : ScanState) (r : PrinterRecord) : ScanState :=
  let mono := mono_like r
  let st1 := ["k", "c", "m", "y"].foldl (tonerStep tt r mono) st
  let st2 := fuserStep ft r st1
  keywordRules.foldl (keywordStep r) st2

/-- The final `sorted(alerts, key=lambda a: (a.printer_id, a.item))` order. -/
def alertLE (a b : LowAlert) : Bool :=
  decide (a.printer_id < b.printer_id ∨ (a.printer_id = b.printer_id ∧ a.item ≤ b.item))

/-- Function `build_low_alerts` from src/main.py. -/
def build_low_alerts (records : List PrinterRecord) (tt ft : Nat) : List LowAlert :=
  (records.foldl (processRecord tt ft) { alerts := [], seen := [] }).alerts.mergeSort alertLE


/-! ## Concrete sample data used by witnesses -/

/-- A concrete snapshot item, as `build_current_empties` would produce it. -/
def sampleItem : Item :=
  { key := "00001::Tray 1"
    printer_id := "00001"
    description := "Lab printer"
    tray := "Tray 1"
    status_message := "tray 1 empty"
    printer_text := ""
    device_last_update := ""
    since := none
    last_seen := none }

/-- A concrete document with one open tray, used by witnesses. -/
def sampleDoc : StateData :=
  { open_empty_trays := [("00001::Tray 1", sampleItem)]
    events := []
    last_scan_at := ""
    extra := [("schema", "1")] }

/-- Proof-support invariant: no alert emitted so far is a Fuser alert and no
deduplication key seen so far is for the Fuser item.  This holds throughout
the toner-channel loop of `build_low_alerts`. -/
def NoFuserState (st : ScanState) : Prop :=
  (∀ a ∈ st.alerts, a.item ≠ "Fuser") ∧ ∀ d ∈ st.seen, d.2.1 ≠ "Fuser"

/-- A concrete mono-like record: zeroed colour channels, low black toner. -/
def monoRecord : PrinterRecord :=
  { printer_id := "10001"
    description := "Lab mono printer"
    status_message := "Ready"
    printer_text := ""
    levels := [("toner_k", 5), ("toner_c", 0), ("toner_m", 0), ("toner_y", 0)] }

/-- A concrete record that is both at a low fuser level and reporting the
"low fuser" status phrase. -/
def fuserRecord : PrinterRecord :=
  { printer_id := "10002"
    description := "Lab color printer"
    status_message := "Warning: LOW Fuser"
    printer_text := ""
    levels := [("fuser", 5)] }

/-! ## Theorems -/

/-- Lemma: `trimEvents` leaves a list within the cap unchanged. -/
theorem trimEvents_of_le {l : List Event} (h : l.length ≤ MAX_EVENTS) :
    StateStore.trimEvents l = l := by
  unfold StateStore.trimEvents
  rw [if_neg (by omega)]

/-- Lemma: `trimEvents` always returns the newest-suffix of its input. -/
theorem trimEvents_eq_drop (l : List Event) :
    StateStore.trimEvents l = l.drop (l.length - MAX_EVENTS) := by
  unfold StateStore.trimEvents
  split
  · rfl
  · have h0 : l.length - MAX_EVENTS = 0 := by omega
    rw [h0, List.drop_zero]

/-- Lemma: `trimEvents` never returns more than `MAX_EVENTS` entries. -/
theorem trimEvents_length_le (l : List Event) :
    (StateStore.trimEvents l).length ≤ MAX_EVENTS := by
  unfold StateStore.trimEvents
  split
  · rw [List.length_drop]
    omega
  · omega

/-- C3 (amended): tray-label normalization maps "tray07" to "Tray 7"; it maps
"TRAY-B" to "Tray -B" (the hyphen survives the character filter, so the
remainder after the TRAY prefix is "-B", which is not numeric); any input
that leaves no recognizable token after stripping maps to "Unknown Tray". -/
theorem normalize_tray_examples :
    normalize_tray "tray07" = "Tray 7" ∧
    normalize_tray "TRAY-B" = "Tray -B" ∧
    ∀ s : String, s.data.filter keepTrayChar = [] → normalize_tray s = "Unknown Tray" := by
  refine ⟨by decide, by decide, ?_⟩
  intro s h
  simp only [normalize_tray, h, List.map_nil, List.isEmpty_nil, if_true]

/-- Witness for `normalize_tray_examples`: the input "@#!" strips to nothing
and normalizes to "Unknown Tray". -/
theorem normalize_tray_examples_witness :
    "@#!".data.filter keepTrayChar = [] ∧ normalize_tray "@#!" = "Unknown Tray" :=
  ⟨by decide, normalize_tray_examples.2.2 "@#!" (by decide)⟩

/-- C3 counterexample: normalization sends "TRAY-B" to "Tray -B", not to
"Tray B" as claimed. -/
theorem normalize_tray_trayB_counterexample :
    normalize_tray "TRAY-B" = "Tray -B" ∧ normalize_tray "TRAY-B" ≠ "Tray B" := by
  constructor <;> decide

/-- C4: the tail metric extractor collects the boundary-delimited 1–3 digit
integer tokens; when at least ten exist and the last ten all lie in [0,100]
they are assigned in the fixed order toner_k, toner_c, toner_m, toner_y,
drum_k, drum_c, drum_m, drum_y, belt, fuser; with fewer than ten numbers, or
a last-ten value out of range, the levels mapping is empty. -/
theorem parse_tail_metrics_spec (t : String) :
    ((tailNumbers t).length < 10 → parse_tail_metrics t = []) ∧
    ∀ a b c d e f g h i j : Nat,
      (tailNumbers t).drop ((tailNumbers t).length - 10) = [a, b, c, d, e, f, g, h, i, j] →
      ((a ≤ 100 ∧ b ≤ 100 ∧ c ≤ 100 ∧ d ≤ 100 ∧ e ≤ 100 ∧ f ≤ 100 ∧ g ≤ 100 ∧ h ≤ 100 ∧
          i ≤ 100 ∧ j ≤ 100) →
        parse_tail_metrics t =
          [("toner_k", a), ("toner_c", b), ("toner_m", c), ("toner_y", d), ("drum_k", e),
            ("drum_c", f), ("drum_m", g), ("drum_y", h), ("belt", i), ("fuser", j)]) ∧
      (¬ (a ≤ 100 ∧ b ≤ 100 ∧ c ≤ 100 ∧ d ≤ 100 ∧ e ≤ 100 ∧ f ≤ 100 ∧ g ≤ 100 ∧ h ≤ 100 ∧
          i ≤ 100 ∧ j ≤ 100) →
        parse_tail_metrics t = []) := by
  constructor
  · intro h
    simp only [parse_tail_metrics]
    rw [if_neg (by omega)]
  · intro a b c d e f g h i j hdrop
    have hlen : 10 ≤ (tailNumbers t).length := by
      have h10 := congrArg List.length hdrop
      simp only [List.length_drop, List.length_cons, List.length_nil] at h10
      omega
    constructor
    · intro hrange
      simp only [parse_tail_metrics]
      rw [if_pos hlen, hdrop, if_pos ?_]
      · rfl
      · simp only [List.all_cons, List.all_nil, Bool.and_true, Bool.and_eq_true,
          decide_eq_true_eq]
        omega
    · intro hrange
      simp only [parse_tail_metrics]
      rw [if_pos hlen, hdrop, if_neg ?_]
      intro hall
      simp only [List.all_cons, List.all_nil, Bool.and_true, Bool.and_eq_true,
        decide_eq_true_eq] at hall
      exact hrange (by omega)

/-- Witness for `parse_tail_metrics_spec`: a tail with exactly ten in-range
numbers yields the full channel assignment. -/
theorem parse_tail_metrics_spec_witness :
    (tailNumbers "1 2 3 4 5 6 7 8 9 10").drop
        ((tailNumbers "1 2 3 4 5 6 7 8 9 10").length - 10) =
      [1, 2, 3, 4, 5, 6, 7, 8, 9, 10] ∧
    parse_tail_metrics "1 2 3 4 5 6 7 8 9 10" =
      [("toner_k", 1), ("toner_c", 2), ("toner_m", 3), ("toner_y", 4), ("drum_k", 5),
        ("drum_c", 6), ("drum_m", 7), ("drum_y", 8), ("belt", 9), ("fuser", 10)] :=
  ⟨by decide,
    ((parse_tail_metrics_spec "1 2 3 4 5 6 7 8 9 10").2 1 2 3 4 5 6 7 8 9 10 (by decide)).1
      (by omega)⟩

/-- C9 (code bug): the spec requires that a missing or unparsable persisted
document silently resets to the empty default and that startup never fails
on state corruption.  The caught paths behave as specified — a missing file,
an `OSError` from `read_text`, and a `JSONDecodeError` from `json.loads` all
yield the empty default — but the except clause at src/main.py:133 omits
`UnicodeDecodeError`, so a state file whose bytes are not valid UTF-8
crashes startup; and a parseable non-dict document (e.g. the JSON text "[]")
is assigned to `self.data` unchecked and crashes app construction in
`get_open_empties` with `AttributeError`. -/
theorem load_corruption_code_bug :
    StateStore.init StateStore.FileRead.missing =
      Except.ok (StateStore.DataValue.doc defaultData) ∧
    StateStore.init StateStore.FileRead.osError =
      Except.ok (StateStore.DataValue.doc defaultData) ∧
    StateStore.init StateStore.FileRead.badJson =
      Except.ok (StateStore.DataValue.doc defaultData) ∧
    StateStore.init StateStore.FileRead.unicodeError =
      Except.error StateStore.PyException.unicodeDecodeError ∧
    StateStore.startup_open_empties StateStore.FileRead.jsonNonDict =
      Except.error StateStore.PyException.attributeError :=
  ⟨rfl, rfl, rfl, rfl, rfl⟩

/-- C7: manual resolution of an open key removes it, appends exactly one
"filled" event noting "manually marked filled" with last_seen equal to the
given timestamp, persists the trimmed log, and returns success; manual
resolution of a key that is not open returns failure and leaves the
persisted document completely unchanged. -/
theorem manual_mark_filled_spec (doc : StateData) (k ts : String) :
    (∀ it, alookup k doc.open_empty_trays = some it →
      StateStore.manual_mark_filled doc k ts =
        (true,
          { open_empty_trays := StateStore.removeKey k doc.open_empty_trays
            events := StateStore.trimEvents (doc.events ++
              [StateStore.mkEvent ts "filled" { it with last_seen := some ts }
                "manually marked filled"])
            last_scan_at := ts
            extra := doc.extra })) ∧
    (alookup k doc.open_empty_trays = none →
      StateStore.manual_mark_filled doc k ts = (false, doc)) := by
  constructor
  · intro it h
    simp only [StateStore.manual_mark_filled, h]
  · intro h
    simp only [StateStore.manual_mark_filled, h]

/-- Witness for `manual_mark_filled_spec`: resolving the one open tray of
`sampleDoc` succeeds and appends the manual "filled" event; resolving an
unknown key fails and changes nothing. -/
theorem manual_mark_filled_spec_witness :
    alookup "00001::Tray 1" sampleDoc.open_empty_trays = some sampleItem ∧
    StateStore.manual_mark_filled sampleDoc "00001::Tray 1" "T9" =
      (true,
        { open_empty_trays := []
          events := [StateStore.mkEvent "T9" "filled" { sampleItem with last_seen := some "T9" }
            "manually marked filled"]
          last_scan_at := "T9"
          extra := [("schema", "1")] }) ∧
    StateStore.manual_mark_filled sampleDoc "00002::Tray 2" "T9" = (false, sampleDoc) := by
  refine ⟨by decide, ?_, (manual_mark_filled_spec sampleDoc "00002::Tray 2" "T9").2 (by decide)⟩
  have h := (manual_mark_filled_spec sampleDoc "00001::Tray 1" "T9").1 sampleItem (by decide)
  rw [h]
  decide

/-- C10: manual resolution of an open key overwrites the persisted
`last_scan_at` with the manual-resolution timestamp even though no scan
occurred, and any top-level document content other than the open set, the
event list and `last_scan_at` is carried over unchanged. -/
theorem manual_mark_filled_frame (doc : StateData) (k ts : String) (it : Item)
    (h : alookup k doc.open_empty_trays = some it) :
    (StateStore.manual_mark_filled doc k ts).2.last_scan_at = ts ∧
    (StateStore.manual_mark_filled doc k ts).2.extra = doc.extra := by
  simp [StateStore.manual_mark_filled, h]

/-- Witness for `manual_mark_filled_frame` at the sample document. -/
theorem manual_mark_filled_frame_witness :
    alookup "00001::Tray 1" sampleDoc.open_empty_trays = some sampleItem ∧
    (StateStore.manual_mark_filled sampleDoc "00001::Tray 1" "T9").2.last_scan_at = "T9" ∧
    (StateStore.manual_mark_filled sampleDoc "00001::Tray 1" "T9").2.extra =
      sampleDoc.extra :=
  ⟨by decide, manual_mark_filled_frame sampleDoc "00001::Tray 1" "T9" sampleItem (by decide)⟩

/-- C8: after every reconciliation, and after every successful manual
resolution, the persisted event list is the newest-suffix of the untrimmed
log of length at most `MAX_EVENTS`: when the cap is exceeded the oldest
events are dropped first and the newest retained in insertion order. -/
theorem events_capped (doc : StateData) (cur : List (String × Item)) (k t ts : String) :
    ((StateStore.reconcile doc cur t).1.events.length ≤ MAX_EVENTS) ∧
    ((StateStore.reconcile doc cur t).1.events =
      (StateStore.reconcileRawEvents doc cur t).drop
        ((StateStore.reconcileRawEvents doc cur t).length - MAX_EVENTS)) ∧
    (∀ it, alookup k doc.open_empty_trays = some it →
      ((StateStore.manual_mark_filled doc k ts).2.events.length ≤ MAX_EVENTS) ∧
      ((StateStore.manual_mark_filled doc k ts).2.events =
        (doc.events ++ [StateStore.mkEvent ts "filled" { it with last_seen := some ts }
            "manually marked filled"]).drop
          ((doc.events.length + 1) - MAX_EVENTS))) := by
  refine ⟨trimEvents_length_le _, trimEvents_eq_drop _, ?_⟩
  intro it h
  simp only [StateStore.manual_mark_filled, h]
  refine ⟨trimEvents_length_le _, ?_⟩
  rw [trimEvents_eq_drop]
  simp [List.length_append]

/-- Witness for `events_capped` at the sample document. -/
theorem events_capped_witness :
    alookup "00001::Tray 1" sampleDoc.open_empty_trays = some sampleItem ∧
    (StateStore.manual_mark_filled sampleDoc "00001::Tray 1" "T9").2.events.length ≤
      MAX_EVENTS ∧
    (StateStore.reconcile sampleDoc [] "T1").1.events.length ≤ MAX_EVENTS :=
  ⟨by decide,
    ((events_capped sampleDoc [] "00001::Tray 1" "T1" "T9").2.2 sampleItem (by decide)).1,
    (events_capped sampleDoc [] "00001::Tray 1" "T1" "T9").1⟩

/-- Every event emitted by the first reconcile loop carries event_type
"empty". -/
theorem procCurrent_events_empty (prev : List (String × Item)) (t : String)
    (cur : List (String × Item)) :
    ((StateStore.procCurrent prev t cur).2.1).all (fun e => e.event_type == "empty") = true := by
  induction cur with
  | nil => rfl
  | cons p rest ih =>
    obtain ⟨k, it⟩ := p
    simp only [StateStore.procCurrent]
    cases halo : alookup k prev with
    | none => simpa [StateStore.mkEvent] using ih
    | some prior => simpa using ih

/-- The first reconcile loop emits exactly one event per snapshot key whose
key is absent from the prior open set. -/
theorem procCurrent_events_length (prev : List (String × Item)) (t : String)
    (cur : List (String × Item)) :
    (StateStore.procCurrent prev t cur).2.1.length =
      cur.countP (fun p => (alookup p.1 prev).isNone) := by
  induction cur with
  | nil => rfl
  | cons p rest ih =>
    obtain ⟨k, it⟩ := p
    simp only [StateStore.procCurrent, List.countP_cons]
    cases halo : alookup k prev with
    | none => simp [halo, ih]
    | some prior => simp [halo, ih]

/-- Every event emitted by the second reconcile loop carries event_type
"filled". -/
theorem procPrevious_events_filled (cur : List (String × Item)) (t : String)
    (prev : List (String × Item)) :
    ((StateStore.procPrevious cur t prev).1).all (fun e => e.event_type == "filled") = true := by
  induction prev with
  | nil => rfl
  | cons p rest ih =>
    obtain ⟨k, prior⟩ := p
    simp only [StateStore.procPrevious]
    cases hs : (alookup k cur).isSome with
    | true => simpa [hs] using ih
    | false => simpa [hs, StateStore.mkEvent] using ih

/-- C1 (amended): during reconciliation, each key present in the snapshot
but absent from the prior open set causes exactly one history event to be
appended, and that event's event_type is the literal string "empty" (the
source never writes "detected"; "detected" only appears inside the note
"detected by monitor"); every event appended by reconciliation has
event_type "empty" or "filled", and the persisted log is the trimmed
concatenation of the previous log with the newly appended events. -/
theorem reconcile_event_types (doc : StateData) (cur : List (String × Item)) (t : String) :
    (StateStore.reconcileNewEvents doc cur t).all
        (fun e => e.event_type == "empty" || e.event_type == "filled") = true ∧
    (StateStore.reconcileNewEvents doc cur t).countP (fun e => e.event_type == "empty") =
      cur.countP (fun p => (alookup p.1 doc.open_empty_trays).isNone) ∧
    (StateStore.reconcile doc cur t).1.events =
      StateStore.trimEvents (doc.events ++ StateStore.reconcileNewEvents doc cur t) := by
  have h1 := procCurrent_events_empty doc.open_empty_trays t cur
  have h2 := procPrevious_events_filled cur t doc.open_empty_trays
  rw [List.all_eq_true] at h1 h2
  refine ⟨?_, ?_, rfl⟩
  · rw [List.all_eq_true]
    intro e he
    rcases List.mem_append.1 he with he | he
    · simp [h1 e he]
    · simp [h2 e he]
  · rw [StateStore.reconcileNewEvents, List.countP_append]
    have hz : (StateStore.procPrevious cur t doc.open_empty_trays).1.countP
        (fun e => e.event_type == "empty") = 0 := by
      rw [List.countP_eq_zero]
      intro e he
      have := h2 e he
      simp only [beq_iff_eq] at this ⊢
      rw [this]
      decide
    have hfull : (StateStore.procCurrent doc.open_empty_trays t cur).2.1.countP
        (fun e => e.event_type == "empty") =
        (StateStore.procCurrent doc.open_empty_trays t cur).2.1.length :=
      List.countP_eq_length.2 fun e he => h1 e he
    rw [hz, hfull, procCurrent_events_length]
    omega

/-- C1 counterexample: reconciling one newly-empty key appends exactly one
event, and its event_type is "empty", not the claimed "detected". -/
theorem reconcile_detected_counterexample :
    ((StateStore.reconcile defaultData [("00001::Tray 1", sampleItem)] "T1").1.events.map
        Event.event_type) = ["empty"] ∧ ("empty" : String) ≠ "detected" := by
  constructor <;> decide

/-- C2: the full open/closed lifecycle of a key K across successive
reconcile calls, starting from a document with no open trays and an empty
log: appearing at T1 appends exactly one (detection) event and opens K with
since = last_seen = T1; persisting at T2 keeps since, moves last_seen to T2,
and appends nothing; disappearing at T3 appends exactly one "filled" event
carrying the prior entry's fields with last_seen = T3, and removes K. -/
theorem reconcile_lifecycle (doc0 : StateData) (k : String) (it1 it2 : Item)
    (T1 T2 T3 : String)
    (hopen : doc0.open_empty_trays = []) (hev : doc0.events = []) :
    let r1 := StateStore.reconcile doc0 [(k, it1)] T1
    let r2 := StateStore.reconcile r1.1 [(k, it2)] T2
    let r3 := StateStore.reconcile r2.1 [] T3
    let it1S := { it1 with since := some T1, last_seen := some T1 }
    let it2S := { it2 with since := some T1, last_seen := some T2 }
    r1.2.1 = 1 ∧
    r1.1.open_empty_trays = [(k, it1S)] ∧
    r1.1.events = [StateStore.mkEvent T1 "empty" it1S "detected by monitor"] ∧
    r2.2.1 = 0 ∧ r2.2.2 = 0 ∧
    r2.1.open_empty_trays = [(k, it2S)] ∧
    r2.1.events = r1.1.events ∧
    r3.2.2 = 1 ∧
    r3.1.open_empty_trays = [] ∧
    r3.1.events = r1.1.events ++
      [StateStore.mkEvent T3 "filled" { it2 with since := some T1, last_seen := some T3 }
        "no longer reported empty"] := by
  obtain ⟨op, ev, ls, ex⟩ := doc0
  simp only at hopen hev
  subst hopen hev
  simp only [StateStore.reconcile, StateStore.reconcileRawEvents, StateStore.reconcileNewEvents,
    StateStore.procCurrent, StateStore.procPrevious, alookup, StateStore.trimEvents,
    StateStore.mkEvent, MAX_EVENTS, if_true, reduceIte, Option.getD_some, Option.isSome_some,
    Option.isSome_none, List.append_nil, List.nil_append, List.length_cons, List.length_nil]
  norm_num

/-- Witness for `reconcile_lifecycle`: the lifecycle run concretely from the
empty default document. -/
theorem reconcile_lifecycle_witness :
    defaultData.open_empty_trays = [] ∧ defaultData.events = [] ∧
    (StateStore.reconcile defaultData [("00001::Tray 1", sampleItem)] "T1").2.1 = 1 ∧
    (StateStore.reconcile
        (StateStore.reconcile defaultData [("00001::Tray 1", sampleItem)] "T1").1
        [("00001::Tray 1", sampleItem)] "T2").1.open_empty_trays =
      [("00001::Tray 1", { sampleItem with since := some "T1", last_seen := some "T2" })] ∧
    (StateStore.reconcile
        (StateStore.reconcile
          (StateStore.reconcile defaultData [("00001::Tray 1", sampleItem)] "T1").1
          [("00001::Tray 1", sampleItem)] "T2").1
        [] "T3").1.open_empty_trays = [] := by
  have h := reconcile_lifecycle defaultData "00001::Tray 1" sampleItem sampleItem
    "T1" "T2" "T3" rfl rfl
  exact ⟨rfl, rfl, h.1, h.2.2.2.2.2.1, h.2.2.2.2.2.2.2.2.1⟩

/-- C5: a record whose levels are toner_k = 5 with toner_c = toner_m =
toner_y = 0 (a mono-like device) and whose status text triggers no keyword
rule yields, at toner threshold 15, exactly one alert — the Black Toner
threshold alert — and in particular no cyan, magenta or yellow alert. -/
theorem mono_like_suppression (r : PrinterRecord) (ft : Nat)
    (hlv : r.levels = [("toner_k", 5), ("toner_c", 0), ("toner_m", 0), ("toner_y", 0)])
    (hk1 : searchPhrase "low" "toner" (statusBlob r) = false)
    (hk2 : searchPhrase "low" "ink" (statusBlob r) = false)
    (hk3 : searchPhrase "low" "fuser" (statusBlob r) = false) :
    build_low_alerts [r] 15 ft =
      [{ printer_id := r.printer_id, description := r.description, item := "Black Toner",
         level := "5%", source := "threshold <= 15%" }] := by
  unfold build_low_alerts
  have hs : ([r].foldl (processRecord 15 ft) { alerts := [], seen := [] }).alerts =
      [{ printer_id := r.printer_id, description := r.description, item := "Black Toner",
         level := "5%", source := "threshold <= 15%" }] := by
    simp [processRecord, mono_like, tonerStep, fuserStep, keywordStep, keywordRules,
      emitIfNew, alookup, colorName, hlv, hk1, hk2, hk3]
    exact ⟨rfl, rfl⟩
  rw [hs]
  exact List.perm_singleton.1 (List.mergeSort_perm _ _)

/-- Witness for `mono_like_suppression` at a concrete mono-like record. -/
theorem mono_like_suppression_witness :
    monoRecord.levels = [("toner_k", 5), ("toner_c", 0), ("toner_m", 0), ("toner_y", 0)] ∧
    searchPhrase "low" "toner" (statusBlob monoRecord) = false ∧
    searchPhrase "low" "ink" (statusBlob monoRecord) = false ∧
    searchPhrase "low" "fuser" (statusBlob monoRecord) = false ∧
    build_low_alerts [monoRecord] 15 20 =
      [{ printer_id := "10001", description := "Lab mono printer", item := "Black Toner",
         level := "5%", source := "threshold <= 15%" }] := by
  refine ⟨rfl, by decide, by decide, by decide, ?_⟩
  exact mono_like_suppression monoRecord 20 rfl (by decide) (by decide) (by decide)

/-- Case split: `emitIfNew` either leaves the state unchanged, or (when the key is new)
appends the alert and records its deduplication key. -/
theorem emitIfNew_cases (st : ScanState) (d : String × String × String) (a : LowAlert) :
    emitIfNew st d a = st ∨
      (d ∉ st.seen ∧ emitIfNew st d a = { alerts := st.alerts ++ [a], seen := d :: st.seen }) := by
  unfold emitIfNew
  split
  · exact Or.inl rfl
  · exact Or.inr ⟨by assumption, rfl⟩

/-- No string ending in " Toner" equals "Fuser" (a length argument). -/
theorem toner_item_ne_fuser (s : String) : s ++ " Toner" ≠ "Fuser" := by
  intro h
  have hl := congrArg String.length h
  rw [String.length_append, show (" Toner" : String).length = 6 from rfl,
    show ("Fuser" : String).length = 5 from rfl] at hl
  omega

/-- Appending to a string with head `c1` never yields a string with a
different head `c2`. -/
theorem mk_cons_append_ne (c1 c2 : Char) (l1 l2 : List Char) (s : String) (h : c1 ≠ c2) :
    String.mk (c1 :: l1) ++ s ≠ String.mk (c2 :: l2) := by
  intro he
  have hd : (c1 :: l1) ++ s.data = c2 :: l2 := congrArg String.data he
  rw [List.cons_append] at hd
  exact h (List.head_eq_of_cons_eq hd)

/-- The source of a threshold alert is never the fuser keyword reason. -/
theorem threshold_source_ne_keyword (s : String) :
    "threshold <= " ++ s ≠ "status message reports low fuser" := by
  have h1 : ("threshold <= " : String) = String.mk ('t' :: "hreshold <= ".data) := rfl
  have h2 : ("status message reports low fuser" : String) =
      String.mk ('s' :: "tatus message reports low fuser".data) := rfl
  rw [h1, h2]
  exact mk_cons_append_ne _ _ _ _ s (by decide)

/-- Lemma: `emitIfNew` preserves `NoFuserState` whenever neither the alert's item
nor the deduplication key's item is "Fuser". -/
theorem emitIfNew_noFuser (st : ScanState) (d : String × String × String) (a : LowAlert)
    (h : NoFuserState st) (hitem : a.item ≠ "Fuser") (hd : d.2.1 ≠ "Fuser") :
    NoFuserState (emitIfNew st d a) := by
  unfold emitIfNew
  split
  · exact h
  · constructor
    · intro x hx
      rcases List.mem_append.1 hx with hx | hx
      · exact h.1 x hx
      · rcases List.mem_singleton.1 hx with rfl
        exact hitem
    · intro x hx
      rcases List.mem_cons.1 hx with rfl | hx
      · exact hd
      · exact h.2 x hx

/-- One toner-channel step never emits a Fuser alert nor records a Fuser
deduplication key. -/
theorem tonerStep_noFuser (tt : Nat) (r : PrinterRecord) (mono : Bool) (st : ScanState)
    (ch : String) (h : NoFuserState st) : NoFuserState (tonerStep tt r mono st ch) := by
  unfold tonerStep
  split
  · exact h
  · split
    · exact h
    · split
      · exact emitIfNew_noFuser _ _ _ h (toner_item_ne_fuser _) (toner_item_ne_fuser _)
      · exact h

/-- The whole toner-channel loop preserves `NoFuserState`. -/
theorem foldl_tonerStep_noFuser (tt : Nat) (r : PrinterRecord) (mono : Bool)
    (chs : List String) (st : ScanState) (h : NoFuserState st) :
    NoFuserState (chs.foldl (tonerStep tt r mono) st) := by
  induction chs generalizing st with
  | nil => exact h
  | cons c rest ih => exact ih _ (tonerStep_noFuser tt r mono st c h)

/-- Lemma: `emitIfNew` does not change the count of a predicate that is false on
the emitted alert. -/
theorem emitIfNew_countP (st : ScanState) (d : String × String × String) (a : LowAlert)
    (P : LowAlert → Bool) (hPa : P a = false) :
    (emitIfNew st d a).alerts.countP P = st.alerts.countP P := by
  unfold emitIfNew
  split
  · rfl
  · simp [List.countP_append, List.countP_singleton, hPa]

/-- Lemma: `emitIfNew` records no deduplication key other than its own. -/
theorem emitIfNew_seen (st : ScanState) (d : String × String × String) (a : LowAlert)
    (kd : String × String × String) (hkd : kd ≠ d) (h : kd ∉ st.seen) :
    kd ∉ (emitIfNew st d a).seen := by
  unfold emitIfNew
  split
  · exact h
  · intro hmem
    rcases List.mem_cons.1 hmem with he | hmem
    · exact hkd he
    · exact h hmem

/-- A keyword step for a non-Fuser item changes no count of a predicate that
is false on non-Fuser items, and records no Fuser deduplication key. -/
theorem keywordStep_preserving (r : PrinterRecord) (w1 w2 item reason : String)
    (st : ScanState) (hne : item ≠ "Fuser") (P : LowAlert → Bool)
    (hP : ∀ a : LowAlert, a.item = item → P a = false) (kd : String × String × String) :
    ((keywordStep r st (w1, w2, item, reason)).alerts.countP P = st.alerts.countP P) ∧
      (kd.2.1 = "Fuser" → kd ∉ st.seen →
        kd ∉ (keywordStep r st (w1, w2, item, reason)).seen) := by
  unfold keywordStep
  dsimp only
  split
  · constructor
    · exact emitIfNew_countP _ _ _ P (hP _ rfl)
    · intro hkd hnot
      refine emitIfNew_seen _ _ _ _ ?_ hnot
      intro he
      apply hne
      rw [← hkd, he]
  · exact ⟨rfl, fun _ h => h⟩

/-- C6: a record whose fuser level is present and at or below the fuser
threshold, and whose lower-cased status text matches the "low fuser" keyword
phrase, yields exactly two Fuser alerts for that device — one threshold
alert with level "{N}%" and source-category "level", and one keyword alert
with level "reported" — never one and never more than two, because the
deduplication key distinguishes the literal category "level" from the
keyword reason phrase. -/
theorem fuser_double_alert (r : PrinterRecord) (tt ft n : Nat)
    (hf : alookup "fuser" r.levels = some n)
    (hle : n ≤ ft)
    (hkw : searchPhrase "low" "fuser" (statusBlob r) = true) :
    ((build_low_alerts [r] tt ft).countP
        (fun a => a.printer_id == r.printer_id && a.item == "Fuser") = 2) ∧
    ((build_low_alerts [r] tt ft).countP
        (fun a => a.item == "Fuser" && a.level == toString n ++ "%" &&
          a.source == "threshold <= " ++ toString ft ++ "%") = 1) ∧
    ((build_low_alerts [r] tt ft).countP
        (fun a => a.item == "Fuser" && a.level == "reported" &&
          a.source == "status message reports low fuser") = 1) := by
  have hinit : NoFuserState { alerts := [], seen := [] } :=
    ⟨fun a ha => absurd ha (List.not_mem_nil a), fun d hd => absurd hd (List.not_mem_nil d)⟩
  set st1 : ScanState :=
    List.foldl (tonerStep tt r (mono_like r)) { alerts := [], seen := [] } ["k", "c", "m", "y"]
    with hst1
  have h1 : NoFuserState st1 := by
    rw [hst1]
    exact foldl_tonerStep_noFuser tt r (mono_like r) _ _ hinit
  obtain ⟨hA, hS⟩ := h1
  have hsrc_ne : "threshold <= " ++ toString ft ++ "%" ≠
      "status message reports low fuser" := by
    rw [String.append_assoc]
    exact threshold_source_ne_keyword _
  have hQ1 : ∀ a : LowAlert, a.item ≠ "Fuser" →
      (a.printer_id == r.printer_id && a.item == "Fuser") = false := by
    intro a ha
    rw [beq_eq_false_iff_ne.2 ha, Bool.and_false]
  have hQ2 : ∀ a : LowAlert, a.item ≠ "Fuser" →
      (a.item == "Fuser" && a.level == toString n ++ "%" &&
        a.source == "threshold <= " ++ toString ft ++ "%") = false := by
    intro a ha
    rw [beq_eq_false_iff_ne.2 ha, Bool.false_and, Bool.false_and]
  have hQ3 : ∀ a : LowAlert, a.item ≠ "Fuser" →
      (a.item == "Fuser" && a.level == "reported" &&
        a.source == "status message reports low fuser") = false := by
    intro a ha
    rw [beq_eq_false_iff_ne.2 ha, Bool.false_and, Bool.false_and]
  have hz1 : st1.alerts.countP
      (fun a => a.printer_id == r.printer_id && a.item == "Fuser") = 0 :=
    List.countP_eq_zero.2 fun a ha => by simp [hQ1 a (hA a ha)]
  have hz2 : st1.alerts.countP
      (fun a => a.item == "Fuser" && a.level == toString n ++ "%" &&
        a.source == "threshold <= " ++ toString ft ++ "%") = 0 :=
    List.countP_eq_zero.2 fun a ha => by simp [hQ2 a (hA a ha)]
  have hz3 : st1.alerts.countP
      (fun a => a.item == "Fuser" && a.level == "reported" &&
        a.source == "status message reports low fuser") = 0 :=
    List.countP_eq_zero.2 fun a ha => by simp [hQ3 a (hA a ha)]
  have hfuser : fuserStep ft r st1 =
      { alerts := st1.alerts ++
          [{ printer_id := r.printer_id, description := r.description, item := "Fuser",
             level := toString n ++ "%",
             source := "threshold <= " ++ toString ft ++ "%" }],
        seen := (r.printer_id, "Fuser", "level") :: st1.seen } := by
    have hmem : (r.printer_id, "Fuser", "level") ∉ st1.seen := fun hm => hS _ hm rfl
    unfold fuserStep
    rw [hf]
    dsimp only
    rw [if_pos hle]
    unfold emitIfNew
    rw [if_neg hmem]
  set st2 : ScanState :=
    { alerts := st1.alerts ++
        [{ printer_id := r.printer_id, description := r.description, item := "Fuser",
           level := toString n ++ "%",
           source := "threshold <= " ++ toString ft ++ "%" }],
      seen := (r.printer_id, "Fuser", "level") :: st1.seen } with hst2
  have hc1st2 : st2.alerts.countP
      (fun a => a.printer_id == r.printer_id && a.item == "Fuser") = 1 := by
    rw [hst2]
    simp [List.countP_append, List.countP_singleton, hz1]
  have hc2st2 : st2.alerts.countP
      (fun a => a.item == "Fuser" && a.level == toString n ++ "%" &&
        a.source == "threshold <= " ++ toString ft ++ "%") = 1 := by
    rw [hst2]
    simp [List.countP_append, List.countP_singleton, hz2]
  have hc3st2 : st2.alerts.countP
      (fun a => a.item == "Fuser" && a.level == "reported" &&
        a.source == "status message reports low fuser") = 0 := by
    rw [hst2]
    simp [List.countP_append, List.countP_singleton, hz3,
      beq_eq_false_iff_ne.2 hsrc_ne]
  have hkmem2 : (r.printer_id, "Fuser", "status message reports low fuser") ∉ st2.seen := by
    rw [hst2]
    intro hm
    rcases List.mem_cons.1 hm with he | hm
    · simp [Prod.ext_iff] at he
    · exact hS _ hm rfl
  have hp3 := fun P hP kd => keywordStep_preserving r "low" "toner" "Toner"
    "status message reports low toner" st2 (by decide) P hP kd
  set st3 : ScanState :=
    keywordStep r st2 ("low", "toner", "Toner", "status message reports low toner") with hst3
  have hp4 := fun P hP kd => keywordStep_preserving r "low" "ink" "Ink"
    "status message reports low ink" st3 (by decide) P hP kd
  set st4 : ScanState :=
    keywordStep r st3 ("low", "ink", "Ink", "status message reports low ink") with hst4
  have hT : ∀ s : String, s = "Toner" → s ≠ "Fuser" := by
    intro s h
    rw [h]
    decide
  have hI : ∀ s : String, s = "Ink" → s ≠ "Fuser" := by
    intro s h
    rw [h]
    decide
  have hc1st4 : st4.alerts.countP
      (fun a => a.printer_id == r.printer_id && a.item == "Fuser") = 1 := by
    rw [(hp4 _ (fun a ha => hQ1 a (hI _ ha)) ("", "", "")).1, (hp3 _ (fun a ha => hQ1 a (hT _ ha)) ("", "", "")).1,
      hc1st2]
  have hc2st4 : st4.alerts.countP
      (fun a => a.item == "Fuser" && a.level == toString n ++ "%" &&
        a.source == "threshold <= " ++ toString ft ++ "%") = 1 := by
    rw [(hp4 _ (fun a ha => hQ2 a (hI _ ha)) ("", "", "")).1, (hp3 _ (fun a ha => hQ2 a (hT _ ha)) ("", "", "")).1,
      hc2st2]
  have hc3st4 : st4.alerts.countP
      (fun a => a.item == "Fuser" && a.level == "reported" &&
        a.source == "status message reports low fuser") = 0 := by
    rw [(hp4 _ (fun a ha => hQ3 a (hI _ ha)) ("", "", "")).1, (hp3 _ (fun a ha => hQ3 a (hT _ ha)) ("", "", "")).1,
      hc3st2]
  have hkmem4 : (r.printer_id, "Fuser", "status message reports low fuser") ∉ st4.seen :=
    (hp4 (fun _ => false) (fun _ _ => rfl) _).2 rfl
      ((hp3 (fun _ => false) (fun _ _ => rfl) _).2 rfl hkmem2)
  have hlast : keywordStep r st4 ("low", "fuser", "Fuser", "status message reports low fuser") =
      { alerts := st4.alerts ++
          [{ printer_id := r.printer_id, description := r.description, item := "Fuser",
             level := "reported", source := "status message reports low fuser" }],
        seen := (r.printer_id, "Fuser", "status message reports low fuser") :: st4.seen } := by
    unfold keywordStep
    dsimp only
    rw [hkw, if_pos rfl]
    unfold emitIfNew
    rw [if_neg hkmem4]
  have hunfold : build_low_alerts [r] tt ft =
      (keywordStep r st4
        ("low", "fuser", "Fuser", "status message reports low fuser")).alerts.mergeSort
        alertLE := by
    rw [hst4, hst3, ← hfuser, hst1]
    rfl
  have hperm := List.mergeSort_perm
    ((keywordStep r st4 ("low", "fuser", "Fuser", "status message reports low fuser")).alerts)
    alertLE
  rw [hunfold]
  refine ⟨?_, ?_, ?_⟩
  · rw [List.Perm.countP_eq _ hperm, hlast]
    simp [List.countP_append, List.countP_singleton, hc1st4]
  · rw [List.Perm.countP_eq _ hperm, hlast]
    simp [List.countP_append, List.countP_singleton, hc2st4,
      beq_eq_false_iff_ne.2 (Ne.symm hsrc_ne)]
  · rw [List.Perm.countP_eq _ hperm, hlast]
    simp [List.countP_append, List.countP_singleton, hc3st4]

/-- Witness for `fuser_double_alert` at a concrete record that is both below
the fuser threshold and reporting "low fuser". -/
theorem fuser_double_alert_witness :
    alookup "fuser" fuserRecord.levels = some 5 ∧ 5 ≤ 20 ∧
    searchPhrase "low" "fuser" (statusBlob fuserRecord) = true ∧
    (build_low_alerts [fuserRecord] 15 20).countP
        (fun a => a.printer_id == fuserRecord.printer_id && a.item == "Fuser") = 2 := by
  refine ⟨by decide, by decide, by decide, ?_⟩
  exact (fuser_double_alert fuserRecord 15 20 5 (by decide) (by decide) (by decide)).1
